import Mathlib

/-!
Verification of the type-information registry of `psycopg/_typeinfo.py`.

The embedding models:
* Python strings as `List Char` (`PyString`);
* Python values usable as registry lookup keys as `PyKey` (strings, ints,
  tuples, and a constructor `pother` standing for a value of any other
  Python type, tagged with its type name);
* `TypeInfo` objects as a structure carrying the five attributes set by
  `TypeInfo.__init__` plus an `objId : Nat` field modelling Python object
  identity (two objects are the same Python object iff the whole structure,
  `objId` included, is equal);
* the `_registry` dict as an insertion-ordered association list with
  Python dict assignment semantics (`Dict.set` overwrites in place);
* the aliasing of `_registry` dicts between a registry and its template as
  an explicit heap (`World`, a list of dicts indexed by address); a
  `TypesRegistry` object is an address into the heap plus the
  `_own_state` flag.
-/

abbrev PyString := List Char

/-- An element of a Python tuple used as a compound registry key:
`(cls, oid)` pairs built from a class object and an int, plus strings for
generality. A class object is identified by its name. -/
inductive PyAtom where
  | aint (n : Int)
  | astr (s : PyString)
  | atyp (clsName : PyString)
deriving DecidableEq

/-- A Python value passed as a key to `TypesRegistry.__getitem__` / `get`.
`pstr`, `pint` and `ptup` model `str`, `int` and `tuple` values;
`pother ty` models a value of any other Python type whose type name is
`ty` (e.g. `float`, `NoneType`, `list`). -/
inductive PyKey where
  | pstr (s : PyString)
  | pint (n : Int)
  | ptup (elems : List PyAtom)
  | pother (ty : PyString)
deriving DecidableEq

/-- `TypeInfo` object attributes, as set by `TypeInfo.__init__`, plus
`objId`, modelling Python object identity. -/
structure TypeInfo where
  name : PyString
  oid : Int
  array_oid : Int
  regtype : PyString
  delimiter : PyString
  objId : Nat
deriving DecidableEq

/-- `TypeInfo.__init__(name, oid, array_oid, *, regtype="", delimiter=",")`:
stores the attributes, with `self.regtype = regtype or name` (a falsy, i.e.
empty, `regtype` argument defaults to `name`). `objId` is the identity of
the freshly constructed object. -/
def TypeInfo.make (name : PyString) (oid : Int) (array_oid : Int)
    (regtype : PyString) (delimiter : PyString) (objId : Nat) : TypeInfo :=
  ⟨name, oid, array_oid, if regtype = [] then name else regtype, delimiter, objId⟩

/-- Exceptions raised by the registry lookup methods:
`KeyError` (carrying the key reported in the message, i.e. the key after
array-suffix stripping) and `TypeError` (carrying the name of the
offending key's type). -/
inductive RegError where
  | keyError (key : PyKey)
  | typeError (gotType : PyString)
deriving DecidableEq

/-- The `_registry` dict: an insertion-ordered association list from keys
to `TypeInfo` objects. -/
abbrev Dict := List (PyKey × TypeInfo)

/-- Python dict lookup: first (unique) entry with the given key. -/
def Dict.find : Dict → PyKey → Option TypeInfo
  | [], _ => none
  | (k', v) :: rest, k => if k' = k then some v else Dict.find rest k

/-- Python dict assignment `d[k] = v`: overwrite in place if the key is
present, append otherwise. -/
def Dict.set : Dict → PyKey → TypeInfo → Dict
  | [], k, v => [(k, v)]
  | (k', v') :: rest, k, v =>
      if k' = k then (k, v) :: rest else (k', v') :: Dict.set rest k v

/-- Python membership test `k in d`. -/
def Dict.contains (d : Dict) (k : PyKey) : Bool :=
  (Dict.find d k).isSome

theorem Dict.find_set_self (d : Dict) (k : PyKey) (v : TypeInfo) :
    Dict.find (Dict.set d k v) k = some v := by
  induction d with
  | nil => simp [Dict.set, Dict.find]
  | cons hd tl ih =>
      obtain ⟨k', v'⟩ := hd
      by_cases h : k' = k <;> simp [Dict.set, Dict.find, h, ih]

theorem Dict.find_set_ne (d : Dict) (k k' : PyKey) (v : TypeInfo)
    (h : k' ≠ k) : Dict.find (Dict.set d k v) k' = Dict.find d k' := by
  induction d with
  | nil => simp [Dict.set, Dict.find, Ne.symm h]
  | cons hd tl ih =>
      obtain ⟨k₀, v₀⟩ := hd
      by_cases h₀ : k₀ = k
      · subst h₀
        simp [Dict.set, Dict.find, Ne.symm h]
      · by_cases h₁ : k₀ = k' <;> simp [Dict.set, Dict.find, h, h₀, h₁, ih]

/-- The two characters of the array-suffix marker. -/
def arrSuffix : PyString := ['[', ']']

def pyEndsWith (s suffix : PyString) : Bool :=
  decide (suffix <:+ s)

/-- The string normalisation done by `TypesRegistry.__getitem__` on `str`
keys: `if key.endswith("[]"): key = key[:-2]`. -/
def stripArraySuffix (s : PyString) : PyString :=
  if pyEndsWith s arrSuffix then s.take (s.length - 2) else s

/-- The heap of `_registry` dict objects: `heap` maps an address (its
index) to the dict stored there. Models Python aliasing of dicts between
a registry and its template. -/
structure World where
  heap : List Dict

/-- Dereference an address (addresses produced by `alloc` are always in
range; the default is never hit in the scenarios proved below). -/
def World.get (w : World) (a : Nat) : Dict :=
  w.heap.getD a []

/-- Create a fresh dict object, returning its address. -/
def World.alloc (w : World) (d : Dict) : World × Nat :=
  (⟨w.heap ++ [d]⟩, w.heap.length)

/-- Mutate the dict object at address `a` in place. -/
def World.put (w : World) (a : Nat) (d : Dict) : World :=
  ⟨w.heap.set a d⟩

/-- A `TypesRegistry` object: `reg` is the address of its `_registry`
dict, `own` its `_own_state` flag. -/
structure TypesRegistry where
  reg : Nat
  own : Bool
deriving DecidableEq

/-- `TypesRegistry.clear`: `self._registry = {}` (a fresh empty dict
object) and `self._own_state = True`. -/
def TypesRegistry.clear (w : World) (_r : TypesRegistry) :
    World × TypesRegistry :=
  let (w', a) := w.alloc []
  (w', ⟨a, true⟩)

/-- `TypesRegistry.__init__` with no template: `self.clear()`. -/
def TypesRegistry.initEmpty (w : World) : World × TypesRegistry :=
  let (w', a) := w.alloc []
  (w', ⟨a, true⟩)

/-- `TypesRegistry.__init__(template)`: share the template's `_registry`
dict by reference and set `_own_state = False` on both the new registry
and the template. Returns (updated template, new registry); the heap is
unchanged. -/
def TypesRegistry.initFrom (tmpl : TypesRegistry) :
    TypesRegistry × TypesRegistry :=
  (⟨tmpl.reg, false⟩, ⟨tmpl.reg, false⟩)

/-- `TypesRegistry._ensure_own_state`: if `_own_state` is false,
`self._registry = self._registry.copy()` (a fresh dict object holding the
same entries) and `self._own_state = True`. -/
def TypesRegistry.ensure_own_state (w : World) (r : TypesRegistry) :
    World × TypesRegistry :=
  if r.own then (w, r)
  else
    let (w', a) := w.alloc (w.get r.reg)
    (w', ⟨a, true⟩)

/-- The dict mutations performed by `TypesRegistry.add` on `_registry`:
insert under the scalar oid if truthy (nonzero), under the array oid if
truthy, under the name unconditionally, and under the regtype only if the
regtype is truthy (non-empty) and the key is not already present.
(`info._added(self)`, called last, is a no-op in the base class.) -/
def TypesRegistry.addEntries (d : Dict) (info : TypeInfo) : Dict :=
  let d1 := if info.oid ≠ 0 then Dict.set d (.pint info.oid) info else d
  let d2 := if info.array_oid ≠ 0 then
    Dict.set d1 (.pint info.array_oid) info else d1
  let d3 := Dict.set d2 (.pstr info.name) info
  if info.regtype ≠ [] ∧ ¬(Dict.contains d3 (.pstr info.regtype)) then
    Dict.set d3 (.pstr info.regtype) info
  else d3

/-- `TypesRegistry.add(info)`: `self._ensure_own_state()` then the dict
insertions of `addEntries`, mutating `self._registry` in place. -/
def TypesRegistry.add (w : World) (r : TypesRegistry) (info : TypeInfo) :
    World × TypesRegistry :=
  let (w1, r1) := TypesRegistry.ensure_own_state w r
  (w1.put r1.reg (TypesRegistry.addEntries (w1.get r1.reg) info), r1)

/-- The shared `try: return self._registry[key] except KeyError: ...`
tail of `__getitem__`, after key normalisation and shape checking. -/
def lookupOrKeyError (d : Dict) (k : PyKey) : Except RegError TypeInfo :=
  match Dict.find d k with
  | some t => .ok t
  | none => .error (.keyError k)

/-- `TypesRegistry.__getitem__`: a `str` key has a trailing `"[]"`
stripped; a key that is neither `str`, `int` nor `tuple` raises
`TypeError`; otherwise the dict is consulted and a missing key raises
`KeyError` (reported with the normalised key). -/
def TypesRegistry.getitem (d : Dict) : PyKey → Except RegError TypeInfo
  | .pstr s => lookupOrKeyError d (.pstr (stripArraySuffix s))
  | .pint n => lookupOrKeyError d (.pint n)
  | .ptup es => lookupOrKeyError d (.ptup es)
  | .pother ty => .error (.typeError ty)

/-- `TypesRegistry.get`: like `__getitem__` but `KeyError` is caught and
turned into `None`; a `TypeError` propagates. -/
def TypesRegistry.get (d : Dict) (k : PyKey) :
    Except RegError (Option TypeInfo) :=
  match TypesRegistry.getitem d k with
  | .ok t => .ok (some t)
  | .error (.keyError _) => .ok none
  | .error e => .error e

/-- `TypesRegistry.get_oid(name)`: `t = self[name]`, then return
`t.array_oid` if the name ends with `"[]"`, else `t.oid`. -/
def TypesRegistry.get_oid (d : Dict) (name : PyString) :
    Except RegError Int :=
  match TypesRegistry.getitem d (.pstr name) with
  | .ok t => .ok (if pyEndsWith name arrSuffix then t.array_oid else t.oid)
  | .error e => .error e

/-- `TypesRegistry.get_by_subtype(cls, subtype)`: look `subtype` up
(`KeyError` becomes `None`), then `self.get((cls, info.oid))`. -/
def TypesRegistry.get_by_subtype (d : Dict) (cls : PyString)
    (subtype : PyKey) : Except RegError (Option TypeInfo) :=
  match TypesRegistry.getitem d subtype with
  | .ok info => TypesRegistry.get d (.ptup [.atyp cls, .aint info.oid])
  | .error (.keyError _) => .ok none
  | .error e => .error e

/-- `__getitem__` on a registry object: consult the dict its `_registry`
address refers to. -/
def TypesRegistry.getitemIn (w : World) (r : TypesRegistry) (k : PyKey) :
    Except RegError TypeInfo :=
  TypesRegistry.getitem (w.get r.reg) k

/-- `get` on a registry object. -/
def TypesRegistry.getIn (w : World) (r : TypesRegistry) (k : PyKey) :
    Except RegError (Option TypeInfo) :=
  TypesRegistry.get (w.get r.reg) k

/-- `get_oid` on a registry object. -/
def TypesRegistry.getOidIn (w : World) (r : TypesRegistry)
    (name : PyString) : Except RegError Int :=
  TypesRegistry.get_oid (w.get r.reg) name

/-- A row returned by the catalog query of `_get_info_query`, as a dict
with columns `name`, `oid`, `array_oid`, `regtype`, `delimiter`. -/
structure Record where
  name : PyString
  oid : Int
  array_oid : Int
  regtype : PyString
  delimiter : PyString
deriving DecidableEq

/-- Exceptions involved in the fetch protocol: the catalog's
`UndefinedObject` ("unknown type") error, the `ProgrammingError` raised by
`_from_records` (carrying the row count and name of its message), and any
other exception a query execution may raise, identified by a tag. -/
inductive PgError where
  | undefinedObject
  | programmingError (count : Nat) (name : PyString)
  | otherError (tag : PyString)
deriving DecidableEq

/-- `TypeInfo._from_records(name, recs)`: one row builds a `TypeInfo` by
calling the class constructor on the row's columns (`newId` is the fresh
object's identity); zero rows give `None`; more rows raise
`ProgrammingError` reporting how many types named `name` were found. -/
def TypeInfo.from_records (name : PyString) (newId : Nat) :
    List Record → Except PgError (Option TypeInfo)
  | [r] => .ok (some (TypeInfo.make r.name r.oid r.array_oid
      r.regtype r.delimiter newId))
  | [] => .ok none
  | recs => .error (.programmingError recs.length name)

/-- What executing the catalog query inside the `try` block of
`TypeInfo._fetch` produced: either the fetched rows, or an exception
raised during execution. -/
inductive QueryOutcome where
  | rows (recs : List Record)
  | exc (err : PgError)
deriving DecidableEq

/-- `TypeInfo._fetch`: run the catalog query inside a transaction block;
`except e.UndefinedObject: return None`; any other exception propagates;
on success the rows go to `_from_records`. -/
def TypeInfo.fetch (name : PyString) (newId : Nat) :
    QueryOutcome → Except PgError (Option TypeInfo)
  | .rows recs => TypeInfo.from_records name newId recs
  | .exc .undefinedObject => .ok none
  | .exc err => .error err

/-- `TypeInfo._fetch_async`: identical to `_fetch` except for the
suspension primitives (awaiting the same operations); the query handling
and error classification are the same. -/
def TypeInfo.fetch_async (name : PyString) (newId : Nat) :
    QueryOutcome → Except PgError (Option TypeInfo)
  | .rows recs => TypeInfo.from_records name newId recs
  | .exc .undefinedObject => .ok none
  | .exc err => .error err

/-- The `vendor` and `server_version` attributes of `conn.info` used by
`_has_to_regtype_function`. -/
structure ConnInfo where
  vendor : PyString
  server_version : Int
deriving DecidableEq

/-- `TypeInfo._has_to_regtype_function`: PostgreSQL from 9.4 (90400) and
CockroachDB from 22.2 (220200) have `to_regtype()`; any other vendor does
not. -/
def TypeInfo.has_to_regtype_function (info : ConnInfo) : Bool :=
  if info.vendor = "PostgreSQL".data then
    decide (90400 ≤ info.server_version)
  else if info.vendor = "CockroachDB".data then
    decide (220200 ≤ info.server_version)
  else
    false

/-- `TypeInfo._to_regtype`: the SQL fragment interpolated into the
catalog query for the type identifier: `to_regtype(%(name)s)` when the
server has the function, else the direct cast `%(name)s::regtype`. -/
def TypeInfo.to_regtype (info : ConnInfo) : PyString :=
  if TypeInfo.has_to_regtype_function info then
    "to_regtype(%(name)s)".data
  else
    "%(name)s::regtype".data

theorem listGetD_append_old (l : List Dict) (d : Dict) (a : Nat)
    (h : a < l.length) : (l ++ [d]).getD a [] = l.getD a [] := by
  induction l generalizing a with
  | nil => simp at h
  | cons x t ih =>
      cases a with
      | zero => rfl
      | succ n =>
          simp only [List.cons_append, List.getD_cons_succ]
          exact ih n (by simpa using h)

theorem listGetD_append_new (l : List Dict) (d : Dict) :
    (l ++ [d]).getD l.length [] = d := by
  induction l with
  | nil => rfl
  | cons x t ih => simp [ih]

theorem listGetD_set_self (l : List Dict) (a : Nat) (d : Dict)
    (h : a < l.length) : (l.set a d).getD a [] = d := by
  induction l generalizing a with
  | nil => simp at h
  | cons x t ih =>
      cases a with
      | zero => rfl
      | succ n =>
          simp only [List.set_cons_succ, List.getD_cons_succ]
          exact ih n (by simpa using h)

theorem listGetD_set_ne (l : List Dict) (a b : Nat) (d : Dict)
    (h : b ≠ a) : (l.set a d).getD b [] = l.getD b [] := by
  induction l generalizing a b with
  | nil => simp
  | cons x t ih =>
      cases a with
      | zero =>
          cases b with
          | zero => exact absurd rfl h
          | succ m => rfl
      | succ n =>
          cases b with
          | zero => rfl
          | succ m =>
              simp only [List.set_cons_succ, List.getD_cons_succ]
              exact ih n m (by omega)

theorem World.get_alloc_old (w : World) (d : Dict) (a : Nat)
    (h : a < w.heap.length) : (w.alloc d).1.get a = w.get a :=
  listGetD_append_old w.heap d a h

theorem World.get_alloc_new (w : World) (d : Dict) :
    (w.alloc d).1.get (w.alloc d).2 = d :=
  listGetD_append_new w.heap d

theorem World.length_alloc (w : World) (d : Dict) :
    (w.alloc d).1.heap.length = w.heap.length + 1 := by
  simp [World.alloc]

theorem World.alloc_addr (w : World) (d : Dict) :
    (w.alloc d).2 = w.heap.length := rfl

theorem World.get_put_self (w : World) (a : Nat) (d : Dict)
    (h : a < w.heap.length) : (w.put a d).get a = d :=
  listGetD_set_self w.heap a d h

theorem World.get_put_ne (w : World) (a b : Nat) (d : Dict)
    (h : b ≠ a) : (w.put a d).get b = w.get b :=
  listGetD_set_ne w.heap a b d h

theorem World.length_put (w : World) (a : Nat) (d : Dict) :
    (w.put a d).heap.length = w.heap.length := by
  simp [World.put]

theorem TypesRegistry.ensure_own_state_of_own (w : World) (r : TypesRegistry)
    (h : r.own = true) : TypesRegistry.ensure_own_state w r = (w, r) := by
  simp [TypesRegistry.ensure_own_state, h]

theorem TypesRegistry.ensure_own_state_of_shared (w : World)
    (r : TypesRegistry) (h : r.own = false) :
    TypesRegistry.ensure_own_state w r =
      ((w.alloc (w.get r.reg)).1, ⟨w.heap.length, true⟩) := by
  simp [TypesRegistry.ensure_own_state, h, World.alloc]

theorem TypesRegistry.add_of_own (w : World) (r : TypesRegistry)
    (x : TypeInfo) (h : r.own = true) :
    TypesRegistry.add w r x =
      (w.put r.reg (TypesRegistry.addEntries (w.get r.reg) x), r) := by
  simp [TypesRegistry.add, TypesRegistry.ensure_own_state_of_own w r h]

theorem TypesRegistry.add_of_shared (w : World) (r : TypesRegistry)
    (x : TypeInfo) (h : r.own = false) :
    TypesRegistry.add w r x =
      ((w.alloc (w.get r.reg)).1.put w.heap.length
          (TypesRegistry.addEntries (w.get r.reg) x),
        ⟨w.heap.length, true⟩) := by
  simp only [TypesRegistry.add, TypesRegistry.ensure_own_state_of_shared w r h]
  have hget := World.get_alloc_new w (w.get r.reg)
  rw [World.alloc_addr] at hget
  rw [hget]

/-- After `add`, the registry's dict holds exactly the `addEntries`
update of the dict it referred to before, the registry owns its state,
and every other previously existing dict object is unchanged. -/
theorem TypesRegistry.add_spec (w : World) (r : TypesRegistry) (x : TypeInfo)
    (h : r.reg < w.heap.length) :
    (TypesRegistry.add w r x).2.own = true ∧
    (TypesRegistry.add w r x).2.reg < (TypesRegistry.add w r x).1.heap.length ∧
    (TypesRegistry.add w r x).1.get (TypesRegistry.add w r x).2.reg
      = TypesRegistry.addEntries (w.get r.reg) x ∧
    w.heap.length ≤ (TypesRegistry.add w r x).1.heap.length ∧
    (∀ a, a < w.heap.length → a ≠ (TypesRegistry.add w r x).2.reg →
      (TypesRegistry.add w r x).1.get a = w.get a) := by
  cases hown : r.own with
  | true =>
      rw [TypesRegistry.add_of_own w r x hown]
      refine ⟨hown, ?_, ?_, ?_, ?_⟩
      · simpa [World.length_put] using h
      · exact World.get_put_self w r.reg _ h
      · simp [World.length_put]
      · intro a _ ha
        exact World.get_put_ne w r.reg a _ ha
  | false =>
      rw [TypesRegistry.add_of_shared w r x hown]
      have hlen : ((w.alloc (w.get r.reg)).1).heap.length = w.heap.length + 1 :=
        World.length_alloc w _
      refine ⟨rfl, ?_, ?_, ?_, ?_⟩
      · simp [World.length_put, hlen]
      · exact World.get_put_self _ w.heap.length _ (by omega)
      · simp [World.length_put, hlen]
      · intro a haw _
        rw [World.get_put_ne _ _ _ _ (by omega)]
        exact World.get_alloc_old w _ a haw

theorem TypesRegistry.clear_spec (w : World) (r : TypesRegistry) :
    (TypesRegistry.clear w r).2.own = true ∧
    (TypesRegistry.clear w r).2.reg = w.heap.length ∧
    (TypesRegistry.clear w r).1.get (TypesRegistry.clear w r).2.reg = [] ∧
    (∀ a, a < w.heap.length → (TypesRegistry.clear w r).1.get a = w.get a) := by
  refine ⟨rfl, rfl, World.get_alloc_new w [], ?_⟩
  intro a ha
  exact World.get_alloc_old w [] a ha

theorem Dict.find_set_pstr_pint (e : Dict) (s : PyString) (v : TypeInfo)
    (n : Int) :
    Dict.find (Dict.set e (.pstr s) v) (.pint n) = Dict.find e (.pint n) :=
  Dict.find_set_ne e _ _ v (by simp)

theorem Dict.find_set_pint_pstr (e : Dict) (n : Int) (v : TypeInfo)
    (s : PyString) :
    Dict.find (Dict.set e (.pint n) v) (.pstr s) = Dict.find e (.pstr s) :=
  Dict.find_set_ne e _ _ v (by simp)

theorem Dict.find_set_pint_ne (e : Dict) (n m : Int) (v : TypeInfo)
    (h : m ≠ n) :
    Dict.find (Dict.set e (.pint n) v) (.pint m) = Dict.find e (.pint m) :=
  Dict.find_set_ne e _ _ v (by simp [h])

theorem Dict.find_set_pstr_ne (e : Dict) (s t : PyString) (v : TypeInfo)
    (h : t ≠ s) :
    Dict.find (Dict.set e (.pstr s) v) (.pstr t) = Dict.find e (.pstr t) :=
  Dict.find_set_ne e _ _ v (by simp [h])

theorem Dict.find_ite_set_pstr (P : Prop) [Decidable P] (e : Dict)
    (s : PyString) (v : TypeInfo) (n : Int) :
    Dict.find (if P then Dict.set e (.pstr s) v else e) (.pint n) =
      Dict.find e (.pint n) := by
  split
  · exact Dict.find_set_pstr_pint e s v n
  · rfl

theorem Dict.find_ite_set_pint (P : Prop) [Decidable P] (e : Dict)
    (n : Int) (v : TypeInfo) (s : PyString) :
    Dict.find (if P then Dict.set e (.pint n) v else e) (.pstr s) =
      Dict.find e (.pstr s) := by
  split
  · exact Dict.find_set_pint_pstr e n v s
  · rfl

/-- The first insertion of `add` (scalar oid, if nonzero), in isolation. -/
def TypesRegistry.oidStep (d : Dict) (x : TypeInfo) : Dict :=
  if x.oid ≠ 0 then Dict.set d (.pint x.oid) x else d

/-- The second insertion of `add` (array oid, if nonzero), in isolation. -/
def TypesRegistry.aoidStep (d : Dict) (x : TypeInfo) : Dict :=
  if x.array_oid ≠ 0 then Dict.set d (.pint x.array_oid) x else d

/-- The last insertion of `add` (regtype, if truthy and not already a
key), in isolation. -/
def TypesRegistry.regtypeStep (d : Dict) (x : TypeInfo) : Dict :=
  if x.regtype ≠ [] ∧ ¬(Dict.contains d (.pstr x.regtype)) then
    Dict.set d (.pstr x.regtype) x
  else d

theorem TypesRegistry.addEntries_decomp (d : Dict) (x : TypeInfo) :
    TypesRegistry.addEntries d x =
      TypesRegistry.regtypeStep
        (Dict.set (TypesRegistry.aoidStep (TypesRegistry.oidStep d x) x)
          (.pstr x.name) x) x := rfl

theorem TypesRegistry.oidStep_find_pstr (d : Dict) (x : TypeInfo)
    (s : PyString) :
    Dict.find (TypesRegistry.oidStep d x) (.pstr s) = Dict.find d (.pstr s) := by
  unfold TypesRegistry.oidStep
  split
  · exact Dict.find_set_pint_pstr d _ x s
  · rfl

theorem TypesRegistry.aoidStep_find_pstr (d : Dict) (x : TypeInfo)
    (s : PyString) :
    Dict.find (TypesRegistry.aoidStep d x) (.pstr s) = Dict.find d (.pstr s) := by
  unfold TypesRegistry.aoidStep
  split
  · exact Dict.find_set_pint_pstr d _ x s
  · rfl

theorem TypesRegistry.regtypeStep_find_pint (d : Dict) (x : TypeInfo)
    (n : Int) :
    Dict.find (TypesRegistry.regtypeStep d x) (.pint n) =
      Dict.find d (.pint n) := by
  unfold TypesRegistry.regtypeStep
  split
  · exact Dict.find_set_pstr_pint d _ x n
  · rfl

/-- The regtype insertion never disturbs a string key already bound: it
is skipped when its key is present, and otherwise sets a different key. -/
theorem TypesRegistry.regtypeStep_preserves_bound (d : Dict) (x : TypeInfo)
    (s : PyString) (v : TypeInfo) (hb : Dict.find d (.pstr s) = some v) :
    Dict.find (TypesRegistry.regtypeStep d x) (.pstr s) = some v := by
  unfold TypesRegistry.regtypeStep
  split
  case isTrue hc =>
      have hne : s ≠ x.regtype := by
        intro e
        apply hc.2
        rw [← e]
        simp [Dict.contains, hb]
      rw [Dict.find_set_pstr_ne _ _ _ _ hne]
      exact hb
  case isFalse => exact hb

theorem TypesRegistry.regtypeStep_find_pstr_ne (d : Dict) (x : TypeInfo)
    (s : PyString) (h : s ≠ x.regtype) :
    Dict.find (TypesRegistry.regtypeStep d x) (.pstr s) =
      Dict.find d (.pstr s) := by
  unfold TypesRegistry.regtypeStep
  split
  · exact Dict.find_set_pstr_ne _ _ _ _ h
  · rfl

theorem TypesRegistry.regtypeStep_inserts (d : Dict) (x : TypeInfo)
    (h1 : x.regtype ≠ []) (h2 : Dict.find d (.pstr x.regtype) = none) :
    Dict.find (TypesRegistry.regtypeStep d x) (.pstr x.regtype) = some x := by
  unfold TypesRegistry.regtypeStep
  rw [if_pos ⟨h1, by simp [Dict.contains, h2]⟩]
  exact Dict.find_set_self _ _ x

/-- `add` binds the scalar oid key to the added object whenever the oid
is nonzero. -/
theorem TypesRegistry.addEntries_find_oid (d : Dict) (x : TypeInfo)
    (h : x.oid ≠ 0) :
    Dict.find (TypesRegistry.addEntries d x) (.pint x.oid) = some x := by
  rw [TypesRegistry.addEntries_decomp, TypesRegistry.regtypeStep_find_pint,
    Dict.find_set_pstr_pint]
  unfold TypesRegistry.aoidStep
  by_cases ha : x.array_oid = 0
  · rw [if_neg (by simp [ha])]
    unfold TypesRegistry.oidStep
    rw [if_pos h]
    exact Dict.find_set_self d _ x
  · rw [if_pos ha]
    by_cases hao : x.array_oid = x.oid
    · rw [hao]
      exact Dict.find_set_self _ _ x
    · rw [Dict.find_set_pint_ne _ _ _ _ (fun e => hao e.symm)]
      unfold TypesRegistry.oidStep
      rw [if_pos h]
      exact Dict.find_set_self d _ x

/-- `add` binds the array oid key to the added object whenever the array
oid is nonzero. -/
theorem TypesRegistry.addEntries_find_aoid (d : Dict) (x : TypeInfo)
    (h : x.array_oid ≠ 0) :
    Dict.find (TypesRegistry.addEntries d x) (.pint x.array_oid) = some x := by
  rw [TypesRegistry.addEntries_decomp, TypesRegistry.regtypeStep_find_pint,
    Dict.find_set_pstr_pint]
  unfold TypesRegistry.aoidStep
  rw [if_pos h]
  exact Dict.find_set_self _ _ x

/-- `add` always binds the name key to the added object. -/
theorem TypesRegistry.addEntries_find_name (d : Dict) (x : TypeInfo) :
    Dict.find (TypesRegistry.addEntries d x) (.pstr x.name) = some x := by
  rw [TypesRegistry.addEntries_decomp]
  exact TypesRegistry.regtypeStep_preserves_bound _ x _ x
    (Dict.find_set_self _ _ x)

/-- `add` binds the regtype key to the added object when the regtype is
non-empty and either coincides with the name or was not previously a
key. -/
theorem TypesRegistry.addEntries_find_regtype (d : Dict) (x : TypeInfo)
    (h1 : x.regtype ≠ [])
    (h2 : x.regtype = x.name ∨ Dict.find d (.pstr x.regtype) = none) :
    Dict.find (TypesRegistry.addEntries d x) (.pstr x.regtype) = some x := by
  rw [TypesRegistry.addEntries_decomp]
  by_cases hrn : x.regtype = x.name
  · apply TypesRegistry.regtypeStep_preserves_bound
    rw [hrn]
    exact Dict.find_set_self _ _ x
  · have hd : Dict.find d (.pstr x.regtype) = none := h2.resolve_left hrn
    apply TypesRegistry.regtypeStep_inserts _ x h1
    rw [Dict.find_set_pstr_ne _ _ _ _ hrn, TypesRegistry.aoidStep_find_pstr,
      TypesRegistry.oidStep_find_pstr]
    exact hd

/-- `add` never rebinds a string key that is already bound and differs
from the added object's name: the regtype alias insertion is skipped for
present keys. -/
theorem TypesRegistry.addEntries_keeps_bound (d : Dict) (x : TypeInfo)
    (s : PyString) (v : TypeInfo) (hb : Dict.find d (.pstr s) = some v)
    (hn : s ≠ x.name) :
    Dict.find (TypesRegistry.addEntries d x) (.pstr s) = some v := by
  rw [TypesRegistry.addEntries_decomp]
  apply TypesRegistry.regtypeStep_preserves_bound
  rw [Dict.find_set_pstr_ne _ _ _ _ hn, TypesRegistry.aoidStep_find_pstr,
    TypesRegistry.oidStep_find_pstr]
  exact hb

/-- A string key different from both the added object's name and regtype
is untouched by `add`. -/
theorem TypesRegistry.addEntries_find_pstr_other (d : Dict) (x : TypeInfo)
    (s : PyString) (hn : s ≠ x.name) (hr : s ≠ x.regtype) :
    Dict.find (TypesRegistry.addEntries d x) (.pstr s) =
      Dict.find d (.pstr s) := by
  rw [TypesRegistry.addEntries_decomp, TypesRegistry.regtypeStep_find_pstr_ne _ _ _ hr,
    Dict.find_set_pstr_ne _ _ _ _ hn, TypesRegistry.aoidStep_find_pstr,
    TypesRegistry.oidStep_find_pstr]

theorem pyEndsWith_append (s : PyString) :
    pyEndsWith (s ++ arrSuffix) arrSuffix = true := by
  simp [pyEndsWith, List.suffix_append]

theorem stripArraySuffix_append (s : PyString) :
    stripArraySuffix (s ++ arrSuffix) = s := by
  rw [stripArraySuffix, if_pos (pyEndsWith_append s)]
  have hlen : (s ++ arrSuffix).length - 2 = s.length := by
    simp [arrSuffix]
  rw [hlen]
  exact List.take_left s arrSuffix

theorem stripArraySuffix_of_not (s : PyString)
    (h : pyEndsWith s arrSuffix = false) : stripArraySuffix s = s := by
  rw [stripArraySuffix, if_neg (by simp [h])]

theorem append_arrSuffix_ne (s : PyString) : s ≠ s ++ arrSuffix := by
  intro e
  have := congrArg List.length e
  simp [arrSuffix] at this

/-- C3: `_from_records` (and hence fetch on a successful query) returns an
absent result for zero catalog rows, constructs and returns a descriptor
built from the single row for exactly one row, and raises the
`ProgrammingError` (ambiguous name) for more than one row, never picking
a row. -/
theorem TypeInfo.from_records_cases (name : PyString) (newId : Nat)
    (recs : List Record) :
    (recs = [] → TypeInfo.fetch name newId (.rows recs) = .ok none) ∧
    (∀ r, recs = [r] → TypeInfo.fetch name newId (.rows recs) =
      .ok (some (TypeInfo.make r.name r.oid r.array_oid r.regtype
        r.delimiter newId))) ∧
    (2 ≤ recs.length → TypeInfo.fetch name newId (.rows recs) =
      .error (.programmingError recs.length name)) := by
  refine ⟨?_, ?_, ?_⟩
  · rintro rfl
    rfl
  · rintro r rfl
    rfl
  · intro h
    match recs, h with
    | r1 :: r2 :: rest, _ => rfl

theorem TypeInfo.from_records_cases_witness :
    (TypeInfo.fetch ['t'] 0 (.rows []) = .ok none) ∧
    (TypeInfo.fetch ['t'] 0 (.rows [⟨['t'], 1, 2, ['t'], [',']⟩]) =
      .ok (some (TypeInfo.make ['t'] 1 2 ['t'] [','] 0))) ∧
    (TypeInfo.fetch ['t'] 0
        (.rows [⟨['t'], 1, 2, ['t'], [',']⟩, ⟨['t'], 3, 4, ['t'], [',']⟩]) =
      .error (.programmingError 2 ['t'])) :=
  ⟨(TypeInfo.from_records_cases ['t'] 0 []).1 rfl,
   (TypeInfo.from_records_cases ['t'] 0 [⟨['t'], 1, 2, ['t'], [',']⟩]).2.1
     ⟨['t'], 1, 2, ['t'], [',']⟩ rfl,
   (TypeInfo.from_records_cases ['t'] 0
     [⟨['t'], 1, 2, ['t'], [',']⟩, ⟨['t'], 3, 4, ['t'], [',']⟩]).2.2
     (by decide)⟩

/-- C4: during fetch, `UndefinedObject` raised by the query is the only
exception that is intercepted (converted to an absent result); every
other exception raised during query execution propagates unchanged, in
both the sync and the async variant. -/
theorem TypeInfo.fetch_intercepts_only_undefined_object (name : PyString)
    (newId : Nat) :
    TypeInfo.fetch name newId (.exc .undefinedObject) = .ok none ∧
    TypeInfo.fetch_async name newId (.exc .undefinedObject) = .ok none ∧
    (∀ err : PgError, err ≠ .undefinedObject →
      TypeInfo.fetch name newId (.exc err) = .error err) ∧
    (∀ err : PgError, err ≠ .undefinedObject →
      TypeInfo.fetch_async name newId (.exc err) = .error err) := by
  refine ⟨rfl, rfl, ?_, ?_⟩ <;>
  · intro err h
    cases err with
    | undefinedObject => exact absurd rfl h
    | programmingError n s => rfl
    | otherError t => rfl

theorem TypeInfo.fetch_intercepts_only_undefined_object_witness :
    TypeInfo.fetch ['t'] 0 (.exc .undefinedObject) = .ok none ∧
    TypeInfo.fetch_async ['t'] 0 (.exc .undefinedObject) = .ok none ∧
    TypeInfo.fetch ['t'] 0 (.exc (.otherError ['x'])) =
      .error (.otherError ['x']) ∧
    TypeInfo.fetch_async ['t'] 0 (.exc (.otherError ['x'])) =
      .error (.otherError ['x']) :=
  ⟨(TypeInfo.fetch_intercepts_only_undefined_object ['t'] 0).1,
   (TypeInfo.fetch_intercepts_only_undefined_object ['t'] 0).2.1,
   (TypeInfo.fetch_intercepts_only_undefined_object ['t'] 0).2.2.1
     (.otherError ['x']) (by decide),
   (TypeInfo.fetch_intercepts_only_undefined_object ['t'] 0).2.2.2
     (.otherError ['x']) (by decide)⟩

/-- C5: the catalog query uses the safe `to_regtype(%(name)s)` fragment
iff the vendor is PostgreSQL with server_version at least 90400 or
CockroachDB with server_version at least 220200; in every other case it
uses the direct cast `%(name)s::regtype`. -/
theorem TypeInfo.to_regtype_characterisation (info : ConnInfo) :
    (TypeInfo.to_regtype info = "to_regtype(%(name)s)".data ↔
      ((info.vendor = "PostgreSQL".data ∧ 90400 ≤ info.server_version) ∨
       (info.vendor = "CockroachDB".data ∧ 220200 ≤ info.server_version))) ∧
    (TypeInfo.to_regtype info = "%(name)s::regtype".data ↔
      ¬((info.vendor = "PostgreSQL".data ∧ 90400 ≤ info.server_version) ∨
        (info.vendor = "CockroachDB".data ∧ 220200 ≤ info.server_version))) := by
  have hne : ("to_regtype(%(name)s)".data : PyString) ≠
      "%(name)s::regtype".data := by decide
  have hpc : ("PostgreSQL".data : PyString) ≠ "CockroachDB".data := by decide
  unfold TypeInfo.to_regtype TypeInfo.has_to_regtype_function
  by_cases h1 : info.vendor = "PostgreSQL".data
  · rw [if_pos h1]
    by_cases h2 : 90400 ≤ info.server_version
    · rw [if_pos (by simpa using h2)]
      exact ⟨iff_of_true rfl (Or.inl ⟨h1, h2⟩),
        iff_of_false hne (fun hn => hn (Or.inl ⟨h1, h2⟩))⟩
    · rw [if_neg (by simpa using h2)]
      have hrhs : ¬((info.vendor = "PostgreSQL".data ∧
            90400 ≤ info.server_version) ∨
          (info.vendor = "CockroachDB".data ∧
            220200 ≤ info.server_version)) := by
        rintro (⟨_, hv⟩ | ⟨hc, _⟩)
        · exact h2 hv
        · rw [h1] at hc
          exact hpc hc
      exact ⟨iff_of_false (Ne.symm hne) hrhs, iff_of_true rfl hrhs⟩
  · rw [if_neg h1]
    by_cases h3 : info.vendor = "CockroachDB".data
    · rw [if_pos h3]
      by_cases h4 : 220200 ≤ info.server_version
      · rw [if_pos (by simpa using h4)]
        exact ⟨iff_of_true rfl (Or.inr ⟨h3, h4⟩),
          iff_of_false hne (fun hn => hn (Or.inr ⟨h3, h4⟩))⟩
      · rw [if_neg (by simpa using h4)]
        have hrhs : ¬((info.vendor = "PostgreSQL".data ∧
              90400 ≤ info.server_version) ∨
            (info.vendor = "CockroachDB".data ∧
              220200 ≤ info.server_version)) := by
          rintro (⟨hp, _⟩ | ⟨_, hv⟩)
          · exact h1 hp
          · exact h4 hv
        exact ⟨iff_of_false (Ne.symm hne) hrhs, iff_of_true rfl hrhs⟩
    · rw [if_neg h3]
      have hrhs : ¬((info.vendor = "PostgreSQL".data ∧
            90400 ≤ info.server_version) ∨
          (info.vendor = "CockroachDB".data ∧
            220200 ≤ info.server_version)) := by
        rintro (⟨hp, _⟩ | ⟨hc, _⟩)
        · exact h1 hp
        · exact h3 hc
      exact ⟨iff_of_false (Ne.symm hne) hrhs, iff_of_true rfl hrhs⟩

theorem TypesRegistry.getitem_pstr (d : Dict) (s : PyString) :
    TypesRegistry.getitem d (.pstr s) =
      lookupOrKeyError d (.pstr (stripArraySuffix s)) := rfl

/-- C6: for a name `s` bound in the registry (and not itself carrying the
array marker), looking up `s ++ "[]"` returns the same descriptor as
looking up `s` (the suffix is stripped before lookup); `get_oid` on
`s ++ "[]"` returns that descriptor's `array_oid` while `get_oid` on `s`
returns its scalar `oid`. -/
theorem TypesRegistry.array_suffix_normalisation (w : World)
    (r : TypesRegistry) (s : PyString) (t : TypeInfo)
    (hs : pyEndsWith s arrSuffix = false)
    (ht : Dict.find (w.get r.reg) (.pstr s) = some t) :
    TypesRegistry.getitemIn w r (.pstr (s ++ arrSuffix)) = .ok t ∧
    TypesRegistry.getitemIn w r (.pstr s) = .ok t ∧
    TypesRegistry.getOidIn w r (s ++ arrSuffix) = .ok t.array_oid ∧
    TypesRegistry.getOidIn w r s = .ok t.oid := by
  have h1 : TypesRegistry.getitem (w.get r.reg) (.pstr (s ++ arrSuffix)) =
      .ok t := by
    rw [TypesRegistry.getitem_pstr, stripArraySuffix_append]
    simp [lookupOrKeyError, ht]
  have h2 : TypesRegistry.getitem (w.get r.reg) (.pstr s) = .ok t := by
    rw [TypesRegistry.getitem_pstr, stripArraySuffix_of_not s hs]
    simp [lookupOrKeyError, ht]
  refine ⟨h1, h2, ?_, ?_⟩
  · unfold TypesRegistry.getOidIn TypesRegistry.get_oid
    rw [h1]
    simp [pyEndsWith_append]
  · unfold TypesRegistry.getOidIn TypesRegistry.get_oid
    rw [h2]
    simp [hs]

theorem TypesRegistry.array_suffix_normalisation_witness :
    (pyEndsWith ['f', 'o', 'o'] arrSuffix = false) ∧
    (Dict.find ((World.mk [[(.pstr ['f', 'o', 'o'],
        TypeInfo.make ['f', 'o', 'o'] 1 2 [] [','] 0)]]).get
        (TypesRegistry.mk 0 true).reg) (.pstr ['f', 'o', 'o']) =
      some (TypeInfo.make ['f', 'o', 'o'] 1 2 [] [','] 0)) ∧
    (TypesRegistry.getitemIn
        (World.mk [[(.pstr ['f', 'o', 'o'],
          TypeInfo.make ['f', 'o', 'o'] 1 2 [] [','] 0)]])
        (TypesRegistry.mk 0 true) (.pstr (['f', 'o', 'o'] ++ arrSuffix)) =
      .ok (TypeInfo.make ['f', 'o', 'o'] 1 2 [] [','] 0)) ∧
    (TypesRegistry.getOidIn
        (World.mk [[(.pstr ['f', 'o', 'o'],
          TypeInfo.make ['f', 'o', 'o'] 1 2 [] [','] 0)]])
        (TypesRegistry.mk 0 true) (['f', 'o', 'o'] ++ arrSuffix) = .ok 2) ∧
    (TypesRegistry.getOidIn
        (World.mk [[(.pstr ['f', 'o', 'o'],
          TypeInfo.make ['f', 'o', 'o'] 1 2 [] [','] 0)]])
        (TypesRegistry.mk 0 true) ['f', 'o', 'o'] = .ok 1) := by
  have h := TypesRegistry.array_suffix_normalisation
    (World.mk [[(.pstr ['f', 'o', 'o'],
      TypeInfo.make ['f', 'o', 'o'] 1 2 [] [','] 0)]])
    (TypesRegistry.mk 0 true) ['f', 'o', 'o']
    (TypeInfo.make ['f', 'o', 'o'] 1 2 [] [','] 0)
    (by decide) (by decide)
  exact ⟨by decide, by decide, h.1, h.2.2.1, h.2.2.2⟩

theorem TypesRegistry.getitem_pint (d : Dict) (n : Int) :
    TypesRegistry.getitem d (.pint n) = lookupOrKeyError d (.pint n) := rfl

/-- C2 (amended): for a descriptor `x` with nonzero `oid`, nonzero
`array_oid`, non-empty `name` and non-empty `regtype` (automatic for
constructor-built descriptors with non-empty name), where neither `name`
nor `regtype` ends with the array marker `"[]"` and `regtype` either
equals `name` or is not already bound in the registry, immediately after
`add(x)` lookups by `x.oid`, `x.array_oid`, `x.name` and `x.regtype` all
return the very same object `x`. -/
theorem TypesRegistry.add_roundtrip (w : World) (r : TypesRegistry)
    (hr : r.reg < w.heap.length) (x : TypeInfo)
    (hoid : x.oid ≠ 0) (haoid : x.array_oid ≠ 0) (hname : x.name ≠ [])
    (hrt : x.regtype ≠ [])
    (hn : pyEndsWith x.name arrSuffix = false)
    (hg : pyEndsWith x.regtype arrSuffix = false)
    (hfresh : x.regtype = x.name ∨
      Dict.find (w.get r.reg) (.pstr x.regtype) = none) :
    TypesRegistry.getitemIn (TypesRegistry.add w r x).1
      (TypesRegistry.add w r x).2 (.pint x.oid) = .ok x ∧
    TypesRegistry.getitemIn (TypesRegistry.add w r x).1
      (TypesRegistry.add w r x).2 (.pint x.array_oid) = .ok x ∧
    TypesRegistry.getitemIn (TypesRegistry.add w r x).1
      (TypesRegistry.add w r x).2 (.pstr x.name) = .ok x ∧
    TypesRegistry.getitemIn (TypesRegistry.add w r x).1
      (TypesRegistry.add w r x).2 (.pstr x.regtype) = .ok x := by
  obtain ⟨-, -, hdict, -, -⟩ := TypesRegistry.add_spec w r x hr
  unfold TypesRegistry.getitemIn
  rw [hdict]
  refine ⟨?_, ?_, ?_, ?_⟩
  · rw [TypesRegistry.getitem_pint]
    simp [lookupOrKeyError, TypesRegistry.addEntries_find_oid _ _ hoid]
  · rw [TypesRegistry.getitem_pint]
    simp [lookupOrKeyError, TypesRegistry.addEntries_find_aoid _ _ haoid]
  · rw [TypesRegistry.getitem_pstr, stripArraySuffix_of_not _ hn]
    simp [lookupOrKeyError, TypesRegistry.addEntries_find_name]
  · rw [TypesRegistry.getitem_pstr, stripArraySuffix_of_not _ hg]
    simp [lookupOrKeyError,
      TypesRegistry.addEntries_find_regtype _ _ hrt hfresh]

theorem TypesRegistry.add_roundtrip_witness :
    ((TypeInfo.make ['t'] 1 2 [] [','] 0).oid ≠ 0) ∧
    ((TypeInfo.make ['t'] 1 2 [] [','] 0).array_oid ≠ 0) ∧
    (TypesRegistry.getitemIn
        (TypesRegistry.add (World.mk [[]]) (TypesRegistry.mk 0 true)
          (TypeInfo.make ['t'] 1 2 [] [','] 0)).1
        (TypesRegistry.add (World.mk [[]]) (TypesRegistry.mk 0 true)
          (TypeInfo.make ['t'] 1 2 [] [','] 0)).2
        (.pint 1) = .ok (TypeInfo.make ['t'] 1 2 [] [','] 0)) ∧
    (TypesRegistry.getitemIn
        (TypesRegistry.add (World.mk [[]]) (TypesRegistry.mk 0 true)
          (TypeInfo.make ['t'] 1 2 [] [','] 0)).1
        (TypesRegistry.add (World.mk [[]]) (TypesRegistry.mk 0 true)
          (TypeInfo.make ['t'] 1 2 [] [','] 0)).2
        (.pint 2) = .ok (TypeInfo.make ['t'] 1 2 [] [','] 0)) ∧
    (TypesRegistry.getitemIn
        (TypesRegistry.add (World.mk [[]]) (TypesRegistry.mk 0 true)
          (TypeInfo.make ['t'] 1 2 [] [','] 0)).1
        (TypesRegistry.add (World.mk [[]]) (TypesRegistry.mk 0 true)
          (TypeInfo.make ['t'] 1 2 [] [','] 0)).2
        (.pstr ['t']) = .ok (TypeInfo.make ['t'] 1 2 [] [','] 0)) := by
  have h := TypesRegistry.add_roundtrip (World.mk [[]])
    (TypesRegistry.mk 0 true) (by decide)
    (TypeInfo.make ['t'] 1 2 [] [','] 0) (by decide) (by decide)
    (by decide) (by decide) (by decide) (by decide) (Or.inl rfl)
  exact ⟨by decide, by decide, h.1, h.2.1, h.2.2.1⟩

/-- C2 as stated fails for a descriptor whose name carries the array
marker: after adding the descriptor named `"a[]"` (oid 1, array oid 2,
non-empty name) to a fresh registry, looking it up by its own name
raises `KeyError` on the stripped base name instead of returning the
descriptor. -/
theorem TypesRegistry.add_roundtrip_counterexample :
    TypesRegistry.getitemIn
      (TypesRegistry.add (World.mk [[]]) (TypesRegistry.mk 0 true)
        (TypeInfo.make ['a', '[', ']'] 1 2 [] [','] 0)).1
      (TypesRegistry.add (World.mk [[]]) (TypesRegistry.mk 0 true)
        (TypeInfo.make ['a', '[', ']'] 1 2 [] [','] 0)).2
      (.pstr ['a', '[', ']']) =
    .error (.keyError (.pstr ['a'])) := rfl

/-- C7: when a descriptor `x` is added and its `regtype` equals a string
key already bound (for example the name of a previously added
descriptor), the add does not rebind that key — the registry still holds
the earlier object `v` under it — while `x`'s (nonzero) oid, (nonzero)
array oid and name keys are all (re)bound to `x` unconditionally. -/
theorem TypesRegistry.regtype_non_override (w : World) (r : TypesRegistry)
    (hr : r.reg < w.heap.length) (x v : TypeInfo)
    (hb : Dict.find (w.get r.reg) (.pstr x.regtype) = some v)
    (hne : x.regtype ≠ x.name) (hoid : x.oid ≠ 0) (haoid : x.array_oid ≠ 0) :
    Dict.find ((TypesRegistry.add w r x).1.get
      (TypesRegistry.add w r x).2.reg) (.pstr x.regtype) = some v ∧
    Dict.find ((TypesRegistry.add w r x).1.get
      (TypesRegistry.add w r x).2.reg) (.pint x.oid) = some x ∧
    Dict.find ((TypesRegistry.add w r x).1.get
      (TypesRegistry.add w r x).2.reg) (.pint x.array_oid) = some x ∧
    Dict.find ((TypesRegistry.add w r x).1.get
      (TypesRegistry.add w r x).2.reg) (.pstr x.name) = some x := by
  obtain ⟨-, -, hdict, -, -⟩ := TypesRegistry.add_spec w r x hr
  rw [hdict]
  exact ⟨TypesRegistry.addEntries_keeps_bound _ x _ v hb hne,
    TypesRegistry.addEntries_find_oid _ x hoid,
    TypesRegistry.addEntries_find_aoid _ x haoid,
    TypesRegistry.addEntries_find_name _ x⟩

theorem TypesRegistry.regtype_non_override_witness :
    (Dict.find ((World.mk [[(.pstr ['t'],
          TypeInfo.make ['t'] 1 2 [] [','] 0)]]).get
        (TypesRegistry.mk 0 true).reg)
      (.pstr (TypeInfo.make ['u'] 3 4 ['t'] [','] 1).regtype) =
      some (TypeInfo.make ['t'] 1 2 [] [','] 0)) ∧
    (Dict.find ((TypesRegistry.add
          (World.mk [[(.pstr ['t'], TypeInfo.make ['t'] 1 2 [] [','] 0)]])
          (TypesRegistry.mk 0 true)
          (TypeInfo.make ['u'] 3 4 ['t'] [','] 1)).1.get
        (TypesRegistry.add
          (World.mk [[(.pstr ['t'], TypeInfo.make ['t'] 1 2 [] [','] 0)]])
          (TypesRegistry.mk 0 true)
          (TypeInfo.make ['u'] 3 4 ['t'] [','] 1)).2.reg)
      (.pstr ['t']) = some (TypeInfo.make ['t'] 1 2 [] [','] 0)) ∧
    (Dict.find ((TypesRegistry.add
          (World.mk [[(.pstr ['t'], TypeInfo.make ['t'] 1 2 [] [','] 0)]])
          (TypesRegistry.mk 0 true)
          (TypeInfo.make ['u'] 3 4 ['t'] [','] 1)).1.get
        (TypesRegistry.add
          (World.mk [[(.pstr ['t'], TypeInfo.make ['t'] 1 2 [] [','] 0)]])
          (TypesRegistry.mk 0 true)
          (TypeInfo.make ['u'] 3 4 ['t'] [','] 1)).2.reg)
      (.pstr ['u']) = some (TypeInfo.make ['u'] 3 4 ['t'] [','] 1)) := by
  have h := TypesRegistry.regtype_non_override
    (World.mk [[(.pstr ['t'], TypeInfo.make ['t'] 1 2 [] [','] 0)]])
    (TypesRegistry.mk 0 true) (by decide)
    (TypeInfo.make ['u'] 3 4 ['t'] [','] 1)
    (TypeInfo.make ['t'] 1 2 [] [','] 0)
    (by decide) (by decide) (by decide) (by decide)
  exact ⟨by decide, h.1, h.2.2.2⟩

/-- C8 (amended): a lookup key that is neither a string, an int nor a
tuple raises `TypeError` immediately — before the index is consulted and
regardless of the registry contents — from both the indexing operator
and `get` (which only swallows `KeyError`); tuple keys of any shape, by
contrast, fall through to the index lookup, so an unsupported tuple is
treated as a miss, not as a usage error. -/
theorem TypesRegistry.lookup_rejects_unsupported_type (w : World)
    (r : TypesRegistry) (ty : PyString) :
    TypesRegistry.getitemIn w r (.pother ty) = .error (.typeError ty) ∧
    TypesRegistry.getIn w r (.pother ty) = .error (.typeError ty) :=
  ⟨rfl, rfl⟩

/-- C8 as stated fails for tuple keys of unsupported shape: looking up
the `(1, 2)` tuple (not a supported (kind, related-oid) compound key) in
a registry raises the not-found `KeyError`, not the claimed type/usage
error. -/
theorem TypesRegistry.lookup_key_shape_counterexample :
    TypesRegistry.getitemIn (World.mk [[]]) (TypesRegistry.mk 0 true)
      (.ptup [.aint 1, .aint 2]) =
    .error (.keyError (.ptup [.aint 1, .aint 2])) := rfl

/-- C10 (amended): for a descriptor whose name ends with `"[]"` (name =
base ++ "[]"), lookups by that name strip the suffix and target the base
name; when the base name was unbound before the add and differs from the
descriptor's regtype, the descriptor cannot be retrieved by its own name:
the indexing operator raises `KeyError` on the base name and `get`
returns `None`. (It is not true unconditionally: if the descriptor's
regtype equals the base name, the regtype alias binds the base name to
the descriptor itself and the lookup does retrieve it.) -/
theorem TypesRegistry.arrayname_lookup_targets_base (w : World)
    (r : TypesRegistry) (hr : r.reg < w.heap.length) (x : TypeInfo)
    (base : PyString) (hname : x.name = base ++ arrSuffix)
    (hrb : x.regtype ≠ base)
    (hdb : Dict.find (w.get r.reg) (.pstr base) = none) :
    TypesRegistry.getitemIn (TypesRegistry.add w r x).1
      (TypesRegistry.add w r x).2 (.pstr x.name) =
      .error (.keyError (.pstr base)) ∧
    TypesRegistry.getIn (TypesRegistry.add w r x).1
      (TypesRegistry.add w r x).2 (.pstr x.name) = .ok none := by
  obtain ⟨-, -, hdict, -, -⟩ := TypesRegistry.add_spec w r x hr
  have hbn : base ≠ x.name := by
    rw [hname]
    exact append_arrSuffix_ne base
  have hfind : Dict.find (TypesRegistry.addEntries (w.get r.reg) x)
      (.pstr base) = none := by
    rw [TypesRegistry.addEntries_find_pstr_other _ _ _ hbn (Ne.symm hrb)]
    exact hdb
  have h1 : TypesRegistry.getitem
      ((TypesRegistry.add w r x).1.get (TypesRegistry.add w r x).2.reg)
      (.pstr x.name) = .error (.keyError (.pstr base)) := by
    rw [hdict, TypesRegistry.getitem_pstr, hname, stripArraySuffix_append]
    simp [lookupOrKeyError, hfind]
  refine ⟨h1, ?_⟩
  unfold TypesRegistry.getIn TypesRegistry.get
  rw [h1]

/-- C10 as stated fails when the descriptor's regtype is the base name:
the descriptor named `"a[]"` with regtype `"a"`, added to a fresh
registry, IS retrieved by looking up its own name `"a[]"` (the stripped
lookup hits the regtype alias binding). -/
theorem TypesRegistry.arrayname_lookup_counterexample :
    TypesRegistry.getitemIn
      (TypesRegistry.add (World.mk [[]]) (TypesRegistry.mk 0 true)
        (TypeInfo.make ['a', '[', ']'] 1 2 ['a'] [','] 0)).1
      (TypesRegistry.add (World.mk [[]]) (TypesRegistry.mk 0 true)
        (TypeInfo.make ['a', '[', ']'] 1 2 ['a'] [','] 0)).2
      (.pstr ['a', '[', ']']) =
    .ok (TypeInfo.make ['a', '[', ']'] 1 2 ['a'] [','] 0) := rfl

theorem TypesRegistry.arrayname_lookup_targets_base_witness :
    (Dict.find ((World.mk [[]]).get (TypesRegistry.mk 0 true).reg)
      (.pstr ['a']) = none) ∧
    (TypesRegistry.getitemIn
        (TypesRegistry.add (World.mk [[]]) (TypesRegistry.mk 0 true)
          (TypeInfo.make ['a', '[', ']'] 1 2 ['b'] [','] 0)).1
        (TypesRegistry.add (World.mk [[]]) (TypesRegistry.mk 0 true)
          (TypeInfo.make ['a', '[', ']'] 1 2 ['b'] [','] 0)).2
        (.pstr ['a', '[', ']']) = .error (.keyError (.pstr ['a']))) ∧
    (TypesRegistry.getIn
        (TypesRegistry.add (World.mk [[]]) (TypesRegistry.mk 0 true)
          (TypeInfo.make ['a', '[', ']'] 1 2 ['b'] [','] 0)).1
        (TypesRegistry.add (World.mk [[]]) (TypesRegistry.mk 0 true)
          (TypeInfo.make ['a', '[', ']'] 1 2 ['b'] [','] 0)).2
        (.pstr ['a', '[', ']']) = .ok none) := by
  have h := TypesRegistry.arrayname_lookup_targets_base (World.mk [[]])
    (TypesRegistry.mk 0 true) (by decide)
    (TypeInfo.make ['a', '[', ']'] 1 2 ['b'] [','] 0) ['a']
    (by decide) (by decide) (by decide)
  exact ⟨by decide, h.1, h.2⟩

/-- C9 (amended): for a registry sharing its index with a template (the
`_own_state` flag is false on both sides after derivation, so `r` here
stands for either side), the first mutating operation marks the registry
privately owned in fresh storage and leaves every previously existing
dict — in particular the shared index and hence the other registry —
completely unchanged; but only `add` forks by taking a shallow copy of
the shared index (`_ensure_own_state`), while `clear` instead installs a
fresh *empty* index, discarding the shared entries rather than copying
them. -/
theorem TypesRegistry.cow_fork_behaviour (w : World) (r : TypesRegistry)
    (hr : r.reg < w.heap.length) (hown : r.own = false) (x : TypeInfo) :
    ((TypesRegistry.ensure_own_state w r).2.own = true ∧
     (TypesRegistry.ensure_own_state w r).2.reg ≠ r.reg ∧
     (TypesRegistry.ensure_own_state w r).1.get
        (TypesRegistry.ensure_own_state w r).2.reg = w.get r.reg ∧
     (∀ a, a < w.heap.length →
       (TypesRegistry.ensure_own_state w r).1.get a = w.get a)) ∧
    ((TypesRegistry.add w r x).2.own = true ∧
     (TypesRegistry.add w r x).2.reg ≠ r.reg ∧
     (TypesRegistry.add w r x).1.get (TypesRegistry.add w r x).2.reg =
        TypesRegistry.addEntries (w.get r.reg) x ∧
     (∀ a, a < w.heap.length →
       (TypesRegistry.add w r x).1.get a = w.get a)) ∧
    ((TypesRegistry.clear w r).2.own = true ∧
     (TypesRegistry.clear w r).2.reg ≠ r.reg ∧
     (TypesRegistry.clear w r).1.get (TypesRegistry.clear w r).2.reg = [] ∧
     (∀ a, a < w.heap.length →
       (TypesRegistry.clear w r).1.get a = w.get a)) := by
  refine ⟨?_, ?_, ?_⟩
  · rw [TypesRegistry.ensure_own_state_of_shared w r hown]
    refine ⟨rfl, show w.heap.length ≠ r.reg by omega, ?_, ?_⟩
    · have hget := World.get_alloc_new w (w.get r.reg)
      rw [World.alloc_addr] at hget
      exact hget
    · intro a ha
      exact World.get_alloc_old w _ a ha
  · rw [TypesRegistry.add_of_shared w r x hown]
    refine ⟨rfl, show w.heap.length ≠ r.reg by omega, ?_, ?_⟩
    · refine World.get_put_self _ w.heap.length _ ?_
      rw [World.length_alloc]
      omega
    · intro a ha
      rw [World.get_put_ne _ _ _ _ (by omega)]
      exact World.get_alloc_old w _ a ha
  · obtain ⟨h1, h2, h3, h4⟩ := TypesRegistry.clear_spec w r
    exact ⟨h1, by omega, h3, h4⟩

theorem TypesRegistry.cow_fork_behaviour_witness :
    ((TypesRegistry.clear (World.mk [[(.pstr ['t'],
          TypeInfo.make ['t'] 1 2 [] [','] 0)]])
        (TypesRegistry.mk 0 false)).1.get
      (TypesRegistry.clear (World.mk [[(.pstr ['t'],
          TypeInfo.make ['t'] 1 2 [] [','] 0)]])
        (TypesRegistry.mk 0 false)).2.reg = []) ∧
    ((TypesRegistry.add (World.mk [[(.pstr ['t'],
          TypeInfo.make ['t'] 1 2 [] [','] 0)]])
        (TypesRegistry.mk 0 false)
        (TypeInfo.make ['u'] 3 4 [] [','] 1)).1.get 0 =
      [(.pstr ['t'], TypeInfo.make ['t'] 1 2 [] [','] 0)]) := by
  have h := TypesRegistry.cow_fork_behaviour
    (World.mk [[(.pstr ['t'], TypeInfo.make ['t'] 1 2 [] [','] 0)]])
    (TypesRegistry.mk 0 false) (by decide) rfl
    (TypeInfo.make ['u'] 3 4 [] [','] 1)
  exact ⟨h.2.2.2.2.1, (h.2.1.2.2.2 0 (by decide)).trans (by decide)⟩

/-- C9 as stated fails for `clear`: with template-derived registry `B`
sharing an index holding the type named `"t"`, `B.clear()` leaves `B`
with an *empty* private index — not a shallow copy of the shared index —
so the shared entry is retrievable from the template but not from `B`. -/
theorem TypesRegistry.cow_fork_counterexample :
    ((TypesRegistry.clear
        (TypesRegistry.add (World.mk [[]]) (TypesRegistry.mk 0 true)
          (TypeInfo.make ['t'] 1 2 [] [','] 0)).1
        (TypesRegistry.initFrom
          (TypesRegistry.add (World.mk [[]]) (TypesRegistry.mk 0 true)
            (TypeInfo.make ['t'] 1 2 [] [','] 0)).2).2).1.get
      (TypesRegistry.clear
        (TypesRegistry.add (World.mk [[]]) (TypesRegistry.mk 0 true)
          (TypeInfo.make ['t'] 1 2 [] [','] 0)).1
        (TypesRegistry.initFrom
          (TypesRegistry.add (World.mk [[]]) (TypesRegistry.mk 0 true)
            (TypeInfo.make ['t'] 1 2 [] [','] 0)).2).2).2.reg = []) ∧
    (TypesRegistry.getitemIn
      (TypesRegistry.clear
        (TypesRegistry.add (World.mk [[]]) (TypesRegistry.mk 0 true)
          (TypeInfo.make ['t'] 1 2 [] [','] 0)).1
        (TypesRegistry.initFrom
          (TypesRegistry.add (World.mk [[]]) (TypesRegistry.mk 0 true)
            (TypeInfo.make ['t'] 1 2 [] [','] 0)).2).2).1
      (TypesRegistry.initFrom
        (TypesRegistry.add (World.mk [[]]) (TypesRegistry.mk 0 true)
          (TypeInfo.make ['t'] 1 2 [] [','] 0)).2).1
      (.pstr ['t']) = .ok (TypeInfo.make ['t'] 1 2 [] [','] 0)) ∧
    (TypesRegistry.getitemIn
      (TypesRegistry.clear
        (TypesRegistry.add (World.mk [[]]) (TypesRegistry.mk 0 true)
          (TypeInfo.make ['t'] 1 2 [] [','] 0)).1
        (TypesRegistry.initFrom
          (TypesRegistry.add (World.mk [[]]) (TypesRegistry.mk 0 true)
            (TypeInfo.make ['t'] 1 2 [] [','] 0)).2).2).1
      (TypesRegistry.clear
        (TypesRegistry.add (World.mk [[]]) (TypesRegistry.mk 0 true)
          (TypeInfo.make ['t'] 1 2 [] [','] 0)).1
        (TypesRegistry.initFrom
          (TypesRegistry.add (World.mk [[]]) (TypesRegistry.mk 0 true)
            (TypeInfo.make ['t'] 1 2 [] [','] 0)).2).2).2
      (.pstr ['t']) = .error (.keyError (.pstr ['t']))) :=
  ⟨rfl, rfl, rfl⟩

/-- C1: with registry `B` freshly derived from template `A`, `B.add(x)`
changes no lookup on `A` (so it cannot make `x` retrievable on `A`), and
a subsequent `A.add(y)` changes no lookup on `B` (so it cannot make `y`
retrievable on `B`). `(initFrom A).1` is `A` after derivation,
`(initFrom A).2` is `B`. -/
theorem TypesRegistry.cow_isolation (w : World) (A : TypesRegistry)
    (hA : A.reg < w.heap.length) (x y : TypeInfo) :
    (∀ k, TypesRegistry.getitemIn
        (TypesRegistry.add w (TypesRegistry.initFrom A).2 x).1
        (TypesRegistry.initFrom A).1 k =
      TypesRegistry.getitemIn w A k) ∧
    (∀ k, TypesRegistry.getitemIn
        (TypesRegistry.add
          (TypesRegistry.add w (TypesRegistry.initFrom A).2 x).1
          (TypesRegistry.initFrom A).1 y).1
        (TypesRegistry.add w (TypesRegistry.initFrom A).2 x).2 k =
      TypesRegistry.getitemIn
        (TypesRegistry.add w (TypesRegistry.initFrom A).2 x).1
        (TypesRegistry.add w (TypesRegistry.initFrom A).2 x).2 k) := by
  have hBreg : (TypesRegistry.add w (TypesRegistry.initFrom A).2 x).2.reg =
      w.heap.length := by
    rw [TypesRegistry.add_of_shared w _ x rfl]
  have hlen2 :
      (TypesRegistry.add w (TypesRegistry.initFrom A).2 x).1.heap.length =
        w.heap.length + 1 := by
    rw [TypesRegistry.add_of_shared w _ x rfl, World.length_put,
      World.length_alloc]
  constructor
  · intro k
    obtain ⟨-, -, -, -, hframe⟩ :=
      TypesRegistry.add_spec w (TypesRegistry.initFrom A).2 x hA
    have hdict : (TypesRegistry.add w (TypesRegistry.initFrom A).2 x).1.get
        A.reg = w.get A.reg :=
      hframe A.reg hA (by rw [hBreg] at *; exact Nat.ne_of_lt hA)
    show TypesRegistry.getitem
        ((TypesRegistry.add w (TypesRegistry.initFrom A).2 x).1.get A.reg) k =
      TypesRegistry.getitem (w.get A.reg) k
    rw [hdict]
  · intro k
    obtain ⟨-, -, -, -, hframe⟩ :=
      TypesRegistry.add_spec
        (TypesRegistry.add w (TypesRegistry.initFrom A).2 x).1
        (TypesRegistry.initFrom A).1 y
        (by rw [hlen2]; exact Nat.lt_succ_of_lt hA)
    have hA2reg : (TypesRegistry.add
        (TypesRegistry.add w (TypesRegistry.initFrom A).2 x).1
        (TypesRegistry.initFrom A).1 y).2.reg =
        (TypesRegistry.add w (TypesRegistry.initFrom A).2 x).1.heap.length := by
      rw [TypesRegistry.add_of_shared _ _ y rfl]
    have hdict : (TypesRegistry.add
        (TypesRegistry.add w (TypesRegistry.initFrom A).2 x).1
        (TypesRegistry.initFrom A).1 y).1.get w.heap.length =
        (TypesRegistry.add w (TypesRegistry.initFrom A).2 x).1.get
          w.heap.length :=
      hframe w.heap.length (by rw [hlen2]; omega)
        (by rw [hA2reg, hlen2]; omega)
    show TypesRegistry.getitem
        ((TypesRegistry.add
          (TypesRegistry.add w (TypesRegistry.initFrom A).2 x).1
          (TypesRegistry.initFrom A).1 y).1.get
          (TypesRegistry.add w (TypesRegistry.initFrom A).2 x).2.reg) k =
      TypesRegistry.getitem
        ((TypesRegistry.add w (TypesRegistry.initFrom A).2 x).1.get
          (TypesRegistry.add w (TypesRegistry.initFrom A).2 x).2.reg) k
    rw [hBreg, hdict]

theorem TypesRegistry.cow_isolation_witness :
    (TypesRegistry.getitemIn
        (TypesRegistry.add (World.mk [[]])
          (TypesRegistry.initFrom (TypesRegistry.mk 0 true)).2
          (TypeInfo.make ['t'] 1 2 [] [','] 0)).1
        (TypesRegistry.initFrom (TypesRegistry.mk 0 true)).1
        (.pstr ['t']) =
      TypesRegistry.getitemIn (World.mk [[]]) (TypesRegistry.mk 0 true)
        (.pstr ['t'])) ∧
    (TypesRegistry.getitemIn
        (TypesRegistry.add
          (TypesRegistry.add (World.mk [[]])
            (TypesRegistry.initFrom (TypesRegistry.mk 0 true)).2
            (TypeInfo.make ['t'] 1 2 [] [','] 0)).1
          (TypesRegistry.initFrom (TypesRegistry.mk 0 true)).1
          (TypeInfo.make ['u'] 3 4 [] [','] 1)).1
        (TypesRegistry.add (World.mk [[]])
          (TypesRegistry.initFrom (TypesRegistry.mk 0 true)).2
          (TypeInfo.make ['t'] 1 2 [] [','] 0)).2
        (.pstr ['u']) =
      TypesRegistry.getitemIn
        (TypesRegistry.add (World.mk [[]])
          (TypesRegistry.initFrom (TypesRegistry.mk 0 true)).2
          (TypeInfo.make ['t'] 1 2 [] [','] 0)).1
        (TypesRegistry.add (World.mk [[]])
          (TypesRegistry.initFrom (TypesRegistry.mk 0 true)).2
          (TypeInfo.make ['t'] 1 2 [] [','] 0)).2
        (.pstr ['u'])) :=
  ⟨(TypesRegistry.cow_isolation (World.mk [[]]) (TypesRegistry.mk 0 true)
      (by decide) (TypeInfo.make ['t'] 1 2 [] [','] 0)
      (TypeInfo.make ['u'] 3 4 [] [','] 1)).1 (.pstr ['t']),
   (TypesRegistry.cow_isolation (World.mk [[]]) (TypesRegistry.mk 0 true)
      (by decide) (TypeInfo.make ['t'] 1 2 [] [','] 0)
      (TypeInfo.make ['u'] 3 4 [] [','] 1)).2 (.pstr ['u'])⟩
